import Mathlib

/-
Verification development for the rocBLAS triangular solve / multiply testing
and validation subsystem.  The data model follows spec.md: enumerated mode
flags (side, fill, operation, diagonal), signed-integer dimensions, a
host/device pointer mode for the scalar alpha, and a status taxonomy.
Routine implementations that are absent from the sources (the argument
validator, the workspace sizing oracle, the size-query short circuit) are
modelled from the spec, as marked in their doc comments; everything else is
embedded from the sources (test expectation logic, rocblas_hbmv_impl).
-/

namespace RocblasSpec

/-- Return status of a rocBLAS routine (spec section 3, "Status"):
success, invalid_handle, invalid_value, invalid_size, invalid_pointer,
memory_error, and the internal sentinel "continue" meaning the validator
approved and the computation should proceed. -/
inductive Status where
  | success
  | invalid_handle
  | invalid_value
  | invalid_size
  | invalid_pointer
  | memory_error
  | status_continue
  deriving DecidableEq

/-- rocblas_side enumerators; rocblas_side_both is a legal enumerator of the
type but an illegal value for trsm/trmm. -/
inductive Side where
  | left
  | right
  | both
  deriving DecidableEq

/-- rocblas_fill enumerators; rocblas_fill_full is a legal enumerator of the
type but an illegal value for the triangular routines. -/
inductive Fill where
  | upper
  | lower
  | full
  deriving DecidableEq

/-- rocblas_operation enumerators, plus a value standing for an out-of-range
integer cast into the enum (the bad-arg tests cast rocblas_side_both into
rocblas_operation). -/
inductive Operation where
  | none
  | transpose
  | conjugate_transpose
  | out_of_range
  deriving DecidableEq

/-- rocblas_diagonal enumerators, plus a value standing for an out-of-range
integer cast into the enum. -/
inductive Diagonal where
  | non_unit
  | unit
  | out_of_range
  deriving DecidableEq

/-- rocblas pointer mode: the scalar alpha lives in host memory (readable
synchronously by the validator) or in device memory (opaque to the
validator). -/
inductive PointerMode where
  | host
  | device
  deriving DecidableEq

/-- K, the order of the triangular operand: M if side = left, N otherwise.
Embedded from the repeated source idiom
`K = side == rocblas_side_left ? M : N`. -/
def kDim (side : Side) (m n : Int) : Int :=
  if side = Side.left then m else n

/-- Arguments of one trsm call.  Dimensions are signed integers as in the C
API.  The alpha pointer is `Option.none` when null, `some v` when it points
at the value v.  aNull / bNull record whether the A / B matrix pointers are
null; the matrix data itself is passed separately. -/
structure TrsmArgs where
  side : Side
  uplo : Fill
  transA : Operation
  diag : Diagonal
  m : Int
  n : Int
  lda : Int
  ldb : Int
  alpha : Option Int
  aNull : Bool
  bNull : Bool
  deriving DecidableEq

/-- A side value is legal for trsm when it is left or right. -/
def sideValid : Side → Bool
  | Side.left => true
  | Side.right => true
  | Side.both => false

/-- A fill value is legal for trsm when it is upper or lower. -/
def fillValid : Fill → Bool
  | Fill.upper => true
  | Fill.lower => true
  | Fill.full => false

/-- An operation value is legal when it is one of the three enumerators. -/
def operationValid : Operation → Bool
  | Operation.none => true
  | Operation.transpose => true
  | Operation.conjugate_transpose => true
  | Operation.out_of_range => false

/-- A diagonal value is legal when it is one of the two enumerators. -/
def diagonalValid : Diagonal → Bool
  | Diagonal.non_unit => true
  | Diagonal.unit => true
  | Diagonal.out_of_range => false

/-- All four mode enumerators of a trsm call are legal. -/
def trsmEnumsValid (a : TrsmArgs) : Bool :=
  sideValid a.side && fillValid a.uplo && operationValid a.transA
    && diagonalValid a.diag

/-- Modelled from the spec: the trsm argument validator itself is not among
the source files (only its tests are).  Check order follows spec section 4.1
and the bad-arg tests: handle, enumerators, negative sizes, leading
dimensions (lda against K, ldb against M), the zero-dimension quick return,
the alpha pointer, the alpha-zero quick return (host pointer mode only,
where alpha is readable), then the A and B pointers.  In device pointer mode
the validator cannot read alpha, so the A pointer is never rejected there;
the B pointer is checked in both modes. -/
def trsm_validate (handleOk : Bool) (mode : PointerMode) (a : TrsmArgs) :
    Status :=
  if handleOk = false then Status.invalid_handle
  else if trsmEnumsValid a = false then Status.invalid_value
  else if a.m < 0 ∨ a.n < 0 then Status.invalid_size
  else if a.lda < kDim a.side a.m a.n ∨ a.ldb < a.m then Status.invalid_size
  else if a.m = 0 ∨ a.n = 0 then Status.success
  else if a.alpha.isNone then Status.invalid_pointer
  else if mode = PointerMode.host ∧ a.alpha = some 0 then Status.success
  else if mode = PointerMode.host ∧ a.aNull = true then Status.invalid_pointer
  else if a.bNull = true then Status.invalid_pointer
  else Status.status_continue

/-- Overwrite the leading M x N block of a matrix (stored as an index
function) with zeros, as the alpha = 0 path of trsm does. -/
def zeroFill (m n : Int) (B : Int → Int → Int) : Int → Int → Int :=
  fun i j => if 0 ≤ i ∧ i < m ∧ 0 ≤ j ∧ j < n then 0 else B i j

/-- Modelled from the spec: one trsm call end to end.  The validator decides
the path; on the zero-dimension quick return B is untouched, on the
alpha = 0 path the M x N result is zeroed (spec section 8), and when the
validator approves with a nonzero (or device-resident nonzero) alpha the
blocked substitution engine — out of scope here — is applied, passed in as
the `engine` parameter. -/
def trsm_run (engine : TrsmArgs → (Int → Int → Int) → (Int → Int → Int))
    (handleOk : Bool) (mode : PointerMode) (a : TrsmArgs)
    (B : Int → Int → Int) : Status × (Int → Int → Int) :=
  match trsm_validate handleOk mode a with
  | Status.status_continue =>
      match a.alpha with
      | some al =>
          if al = 0 then (Status.success, zeroFill a.m a.n B)
          else (Status.success, engine a B)
      | Option.none => (Status.invalid_pointer, B)
  | Status.success =>
      if a.m = 0 ∨ a.n = 0 then (Status.success, B)
      else (Status.success, zeroFill a.m a.n B)
  | st => (st, B)

/-- The trsm blocking factor; TRSM_BLOCK in the sources. -/
def TRSM_BLOCK : Nat := 128

/-- Round k up to the next multiple of the trsm block size (spec section 3:
inverted-diagonal-block storage is sized block_size x K rounded to a block
boundary). -/
def roundUpBlock (k : Nat) : Nat :=
  ((k + TRSM_BLOCK - 1) / TRSM_BLOCK) * TRSM_BLOCK

/-- K over natural-number dimensions, for the workspace oracle. -/
def kDimNat (side : Side) (m n : Nat) : Nat :=
  if side = Side.left then m else n

/-- Conservative workspace bound: scratch buffer, inverted-diagonal-block
buffer, scratch backup buffer (in elements). -/
structure TrsmMaxWorkspace where
  x_tmp : Nat
  invA : Nat
  x_tmp_backup : Nat
  deriving DecidableEq

/-- Exact workspace for one configuration: scratch buffer, scratch pointer
array, inverted-diagonal-block buffer, its pointer array, scratch backup
buffer (in elements). -/
structure TrsmWorkspace where
  x_tmp : Nat
  x_tmp_arr : Nat
  invA : Nat
  invA_arr : Nat
  x_tmp_backup : Nat
  deriving DecidableEq

/-- Modelled from the spec: rocblas_internal_trsm_workspace_max_size_64 is
not among the source files (only its test is).  Per spec sections 3 and 4.2
the conservative bound allots the full M x N scratch and backup buffers and
a block-rounded inverted-diagonal buffer per batch member, dominating every
transpose/diagonal/optimal-memory policy variant.  Sizes are in elements. -/
def rocblas_internal_trsm_workspace_max_size (side : Side)
    (m n batch : Nat) : TrsmMaxWorkspace :=
  ⟨m * n * batch,
   TRSM_BLOCK * roundUpBlock (kDimNat side m n) * batch,
   m * n * batch⟩

/-- Modelled from the spec: rocblas_internal_trsm_workspace_size is not
among the source files (only its test is).  Exact sizes for one
configuration (spec section 4.2): the scratch buffer is M x N per batch
member, except that the non-transposed case may use a smaller panel of B
(the "skinny" policy note and the comment in
testing_trsm_internal_interfaces: transpose always allocates at least as
much as non-transpose); the inverted-diagonal buffer is block-rounded and
omitted when the caller-supplied invA already covers it; each pointer array
holds one entry per batch member. -/
def rocblas_internal_trsm_workspace_size (side : Side) (transA : Operation)
    (m n batch supplied_invA : Nat) : TrsmWorkspace :=
  let invA_needed := TRSM_BLOCK * roundUpBlock (kDimNat side m n) * batch
  let panel := if side = Side.left then n else m
  ⟨(if transA = Operation.none then min (m * n) (TRSM_BLOCK * panel)
    else m * n) * batch,
   batch,
   if invA_needed ≤ supplied_invA then 0 else invA_needed,
   batch,
   m * n * batch⟩

/-- Expected-status logic of testing_trmm_outofplace_batched: the size
validity predicate `M < 0 || N < 0 || lda < K || ldb < M || ldc < M ||
batch_count < 0` (with K = M if side = left else N). -/
def trmm_ob_invalid_size (side : Side) (m n lda ldb ldc batch : Int) :
    Prop :=
  m < 0 ∨ n < 0 ∨ lda < kDim side m n ∨ ldb < m ∨ ldc < m ∨ batch < 0

instance (side : Side) (m n lda ldb ldc batch : Int) :
    Decidable (trmm_ob_invalid_size side m n lda ldb ldc batch) := by
  unfold trmm_ob_invalid_size; infer_instance

/-- Expected-status logic of testing_trmm_outofplace_batched: inside the
guard `M == 0 || N == 0 || batch_count == 0 || invalid_size` the test calls
the routine with all pointers null and asserts this status (invalid_size
wins over the quick return). -/
def trmm_ob_expected_status (side : Side) (m n lda ldb ldc batch : Int) :
    Status :=
  if trmm_ob_invalid_size side m n lda ldb ldc batch then Status.invalid_size
  else Status.success

/-- Whether testing_trmm_outofplace_batched takes its early bad-size /
quick-return branch at all. -/
def trmm_ob_guard (side : Side) (m n lda ldb ldc batch : Int) : Prop :=
  m = 0 ∨ n = 0 ∨ batch = 0 ∨ trmm_ob_invalid_size side m n lda ldb ldc batch

/-- Expected-status logic of testing_trsm_batched_ex: when
`M < 0 || N < 0 || lda < K || ldb < M || batch_count <= 0` the routine is
called and the asserted status is success for batch_count = 0 and
invalid_size otherwise; outside the guard the test proceeds to the compute
path (`Option.none` here). -/
def trsm_batched_ex_expected_status (side : Side)
    (m n lda ldb batch : Int) : Option Status :=
  if m < 0 ∨ n < 0 ∨ lda < kDim side m n ∨ ldb < m ∨ batch ≤ 0 then
    some (if batch = 0 then Status.success else Status.invalid_size)
  else Option.none

/-- Arguments of one hbmv call.  The matrix / vector / scalar pointers are
recorded only through their nullness, which is all the validator reads. -/
structure HbmvArgs where
  uplo : Fill
  n : Int
  k : Int
  lda : Int
  incx : Int
  incy : Int
  alphaNull : Bool
  aNull : Bool
  xNull : Bool
  betaNull : Bool
  yNull : Bool
  deriving DecidableEq

/-- Modelled from the spec: rocblas_hbmv_arg_check is not among the source
files (rocblas_hbmv_imp.hpp only calls it).  Spec section 4.1 order adapted
to the hbmv signature: fill enumerator, sizes (banded storage needs
lda ≥ k + 1 and nonzero increments), zero-dimension quick return, then
pointers. -/
def rocblas_hbmv_arg_check (a : HbmvArgs) : Status :=
  if a.uplo ≠ Fill.upper ∧ a.uplo ≠ Fill.lower then Status.invalid_value
  else if a.n < 0 ∨ a.k < 0 ∨ a.lda < a.k + 1 ∨ a.incx = 0 ∨ a.incy = 0 then
    Status.invalid_size
  else if a.n = 0 then Status.success
  else if a.alphaNull = true ∨ a.betaNull = true then Status.invalid_pointer
  else if a.aNull = true ∨ a.xNull = true ∨ a.yNull = true then
    Status.invalid_pointer
  else Status.status_continue

/-- Outcome of one hbmv call: returned status, the workspace size recorded
if the call ran under a bracketed device-memory size query, and whether any
kernel was launched (data access / computation). -/
structure HbmvOutcome where
  status : Status
  queriedSize : Option Nat
  launchedKernel : Bool
  deriving DecidableEq

/-- Embedded from rocblas_hbmv_impl
(src/library/src/blas2/rocblas_hbmv_imp.hpp): null-handle check first, then
the device-memory size-query short circuit
(RETURN_ZERO_DEVICE_MEMORY_SIZE_IF_QUERIED — its body is not among the
source files; modelled from the spec: between begin/end query the routine
performs no computation and only reports the size it would need, which for
the workspace-free hbmv is zero), then argument checking, then the kernel
launcher. -/
def rocblas_hbmv_impl (handleNull : Bool) (sizeQuery : Bool)
    (a : HbmvArgs) : HbmvOutcome :=
  if handleNull then ⟨Status.invalid_handle, Option.none, false⟩
  else if sizeQuery then ⟨Status.success, some 0, false⟩
  else
    match rocblas_hbmv_arg_check a with
    | Status.status_continue => ⟨Status.success, Option.none, true⟩
    | st => ⟨st, Option.none, false⟩

/-- Concrete call with an illegal side enumerator together with a negative
dimension and null pointers, exercising check precedence. -/
def badEnumArgs : TrsmArgs :=
  ⟨Side.both, Fill.upper, Operation.none, Diagonal.non_unit, -1, 100, 0, 0,
   Option.none, true, true⟩

/-- Concrete call with ldb = M - 1 at M = N = 100 (the invalid-size example
scenario from testing_trsm_bad_arg). -/
def badLdbArgs : TrsmArgs :=
  ⟨Side.left, Fill.upper, Operation.none, Diagonal.non_unit, 100, 100, 100,
   99, some 1, false, false⟩

/-- Concrete zero-dimension call (M = 0) with every pointer null. -/
def zeroDimArgs : TrsmArgs :=
  ⟨Side.left, Fill.upper, Operation.none, Diagonal.non_unit, 0, 5, 7, 7,
   Option.none, true, true⟩

/-- Concrete alpha = 0 call with a null A pointer and valid nonzero sizes. -/
def alphaZeroArgs : TrsmArgs :=
  ⟨Side.left, Fill.upper, Operation.none, Diagonal.non_unit, 2, 3, 2, 2,
   some 0, true, false⟩

/-- A concrete stand-in for the substitution engine, used when instantiating
theorems that hold for every engine. -/
def idEngine : TrsmArgs → (Int → Int → Int) → (Int → Int → Int) :=
  fun _ b => b

/-- A concrete input matrix used when instantiating theorems. -/
def sampleB : Int → Int → Int :=
  fun i j => i + j

/-- Rounding up to a block boundary is monotone. -/
theorem roundUpBlock_mono {j k : Nat} (h : j ≤ k) :
    roundUpBlock j ≤ roundUpBlock k := by
  unfold roundUpBlock
  exact Nat.mul_le_mul_right _
    (Nat.div_le_div_right (Nat.sub_le_sub_right (Nat.add_le_add_right h _) _))

/-- K is monotone in both dimensions. -/
theorem kDimNat_mono {side : Side} {m n mA nA : Nat} (hm : mA ≤ m)
    (hn : nA ≤ n) : kDimNat side mA nA ≤ kDimNat side m n := by
  unfold kDimNat
  split
  · exact hm
  · exact hn

/-- Claim C1: for every valid (M, N, batch_count) and every (MA, NA) with
MA ≤ M and NA ≤ N and the same batch_count, each of the x_tmp, invA and
x_tmp_backup components of the exact workspace_sizes result (with no
supplied invA) is at most the corresponding component of
max_workspace_sizes(side, M, N, batch_count). -/
theorem claim_C1_workspace_domination (side : Side) (transA : Operation)
    (m n mA nA batch : Nat) (hm : mA ≤ m) (hn : nA ≤ n) :
    (rocblas_internal_trsm_workspace_size side transA mA nA batch 0).x_tmp
        ≤ (rocblas_internal_trsm_workspace_max_size side m n batch).x_tmp ∧
    (rocblas_internal_trsm_workspace_size side transA mA nA batch 0).invA
        ≤ (rocblas_internal_trsm_workspace_max_size side m n batch).invA ∧
    (rocblas_internal_trsm_workspace_size side transA mA nA
          batch 0).x_tmp_backup
        ≤ (rocblas_internal_trsm_workspace_max_size side m n
            batch).x_tmp_backup := by
  have hmn : mA * nA ≤ m * n := Nat.mul_le_mul hm hn
  have hinvA : TRSM_BLOCK * roundUpBlock (kDimNat side mA nA) * batch
      ≤ TRSM_BLOCK * roundUpBlock (kDimNat side m n) * batch :=
    Nat.mul_le_mul
      (Nat.mul_le_mul (le_refl TRSM_BLOCK)
        (roundUpBlock_mono (kDimNat_mono hm hn)))
      (le_refl batch)
  unfold rocblas_internal_trsm_workspace_size
    rocblas_internal_trsm_workspace_max_size
  dsimp only
  refine ⟨?_, ?_, ?_⟩
  · apply Nat.mul_le_mul _ (le_refl batch)
    split
    · exact le_trans (Nat.min_le_left _ _) hmn
    · exact hmn
  · split
    · exact Nat.zero_le _
    · exact hinvA
  · exact Nat.mul_le_mul hmn (le_refl batch)

/-- Witness for claim C1 at side = left, transA = none, M = 5, N = 4,
MA = 3, NA = 2, batch_count = 2. -/
theorem claim_C1_workspace_domination_witness :
    3 ≤ 5 ∧ 2 ≤ 4 ∧
      ((rocblas_internal_trsm_workspace_size Side.left Operation.none 3 2 2
            0).x_tmp
          ≤ (rocblas_internal_trsm_workspace_max_size Side.left 5 4
              2).x_tmp ∧
        (rocblas_internal_trsm_workspace_size Side.left Operation.none 3 2 2
            0).invA
          ≤ (rocblas_internal_trsm_workspace_max_size Side.left 5 4
              2).invA ∧
        (rocblas_internal_trsm_workspace_size Side.left Operation.none 3 2 2
            0).x_tmp_backup
          ≤ (rocblas_internal_trsm_workspace_max_size Side.left 5 4
              2).x_tmp_backup) :=
  ⟨by decide, by decide,
    claim_C1_workspace_domination Side.left Operation.none 5 4 3 2 2
      (by decide) (by decide)⟩

/-- Claim C2 counterexample: testing_trmm_outofplace_batched asserts
invalid_size — not success — for the batch_count = 0 call with M = -1
(size checks win over the batch_count = 0 quick return). -/
theorem claim_C2_counterexample :
    trmm_ob_expected_status Side.left (-1) 100 100 100 100 0
        = Status.invalid_size ∧
      Status.invalid_size ≠ Status.success := by
  decide

/-- Claim C2 (amended): a batch_count = 0 call returns success provided the
size arguments are valid; testing_trmm_outofplace_batched expects
invalid_size for invalid dimensions even when batch_count = 0, while
testing_trsm_batched_ex expects success for any dimensions when
batch_count = 0. -/
theorem claim_C2_batch_zero_amended (side : Side)
    (m n lda ldb ldc batch : Int) (hb : batch = 0) :
    (¬ trmm_ob_invalid_size side m n lda ldb ldc batch →
        trmm_ob_expected_status side m n lda ldb ldc batch
          = Status.success) ∧
    trsm_batched_ex_expected_status side m n lda ldb batch
        = some Status.success := by
  subst hb
  constructor
  · intro h
    unfold trmm_ob_expected_status
    rw [if_neg h]
  · unfold trsm_batched_ex_expected_status
    have hg : m < 0 ∨ n < 0 ∨ lda < kDim side m n ∨ ldb < m ∨ (0 : Int) ≤ 0 :=
      Or.inr (Or.inr (Or.inr (Or.inr le_rfl)))
    rw [if_pos hg, if_pos rfl]

/-- Witness for claim C2 (amended) at side = left, M = 3, N = 4,
lda = ldb = ldc = 5, batch_count = 0. -/
theorem claim_C2_batch_zero_amended_witness :
    (0 : Int) = 0 ∧
      ((¬ trmm_ob_invalid_size Side.left 3 4 5 5 5 0 →
          trmm_ob_expected_status Side.left 3 4 5 5 5 0 = Status.success) ∧
        trsm_batched_ex_expected_status Side.left 3 4 5 5 0
          = some Status.success) :=
  ⟨rfl, claim_C2_batch_zero_amended Side.left 3 4 5 5 5 0 rfl⟩

/-- Claim C3: a call with M = 0 or N = 0 and otherwise valid sizes returns
success in either pointer mode even when every pointer argument is null,
and the B operand is returned unmodified, for every substitution engine. -/
theorem claim_C3_zero_dimension_quick_return
    (engine : TrsmArgs → (Int → Int → Int) → (Int → Int → Int))
    (mode : PointerMode) (a : TrsmArgs) (B : Int → Int → Int)
    (henum : trsmEnumsValid a = true) (hm : 0 ≤ a.m) (hn : 0 ≤ a.n)
    (hlda : kDim a.side a.m a.n ≤ a.lda) (hldb : a.m ≤ a.ldb)
    (hzero : a.m = 0 ∨ a.n = 0) :
    trsm_run engine true mode a B = (Status.success, B) := by
  have hv : trsm_validate true mode a = Status.success := by
    unfold trsm_validate
    rw [if_neg (by simp), if_neg (by simp [henum]), if_neg (by omega),
      if_neg (by push_neg; exact ⟨hlda, hldb⟩), if_pos hzero]
  simp only [trsm_run, hv]
  rw [if_pos hzero]

/-- Witness for claim C3 at M = 0, N = 5, null alpha, A and B pointers. -/
theorem claim_C3_zero_dimension_quick_return_witness :
    trsmEnumsValid zeroDimArgs = true ∧ (0 : Int) ≤ zeroDimArgs.m ∧
      (0 : Int) ≤ zeroDimArgs.n ∧
      kDim zeroDimArgs.side zeroDimArgs.m zeroDimArgs.n
        ≤ zeroDimArgs.lda ∧
      zeroDimArgs.m ≤ zeroDimArgs.ldb ∧
      (zeroDimArgs.m = 0 ∨ zeroDimArgs.n = 0) ∧
      trsm_run idEngine true PointerMode.host zeroDimArgs sampleB
        = (Status.success, sampleB) :=
  ⟨by decide, by decide, by decide, by decide, by decide, Or.inl (by decide),
    claim_C3_zero_dimension_quick_return idEngine PointerMode.host
      zeroDimArgs sampleB (by decide) (by decide) (by decide) (by decide)
      (by decide) (Or.inl (by decide))⟩

/-- Claim C4: a call with alpha = 0 and valid nonzero M and N returns
success even with a null A pointer, in either pointer mode, and the M x N
result is zero in every element, for every substitution engine. -/
theorem claim_C4_alpha_zero_solution
    (engine : TrsmArgs → (Int → Int → Int) → (Int → Int → Int))
    (mode : PointerMode) (a : TrsmArgs) (B : Int → Int → Int)
    (henum : trsmEnumsValid a = true) (hm : 0 < a.m) (hn : 0 < a.n)
    (hlda : kDim a.side a.m a.n ≤ a.lda) (hldb : a.m ≤ a.ldb)
    (halpha : a.alpha = some 0) (hb : a.bNull = false) :
    (trsm_run engine true mode a B).1 = Status.success ∧
    ∀ i j : Int, 0 ≤ i → i < a.m → 0 ≤ j → j < a.n →
      (trsm_run engine true mode a B).2 i j = 0 := by
  have hnz : ¬(a.m = 0 ∨ a.n = 0) := by omega
  have hrun : trsm_run engine true mode a B
      = (Status.success, zeroFill a.m a.n B) := by
    cases mode with
    | host =>
        have hv : trsm_validate true PointerMode.host a = Status.success := by
          unfold trsm_validate
          rw [if_neg (by simp), if_neg (by simp [henum]), if_neg (by omega),
            if_neg (by push_neg; exact ⟨hlda, hldb⟩), if_neg hnz,
            if_neg (by simp [halpha]), if_pos ⟨rfl, halpha⟩]
        simp only [trsm_run, hv]
        rw [if_neg hnz]
    | device =>
        have hv : trsm_validate true PointerMode.device a
            = Status.status_continue := by
          unfold trsm_validate
          rw [if_neg (by simp), if_neg (by simp [henum]), if_neg (by omega),
            if_neg (by push_neg; exact ⟨hlda, hldb⟩), if_neg hnz,
            if_neg (by simp [halpha]),
            if_neg (fun h => PointerMode.noConfusion h.1),
            if_neg (fun h => PointerMode.noConfusion h.1),
            if_neg (by simp [hb])]
        simp only [trsm_run, hv, halpha]
        rw [if_pos trivial]
  refine ⟨by rw [hrun], ?_⟩
  intro i j h0i him h0j hjn
  rw [hrun]
  simp only [zeroFill]
  rw [if_pos ⟨h0i, him, h0j, hjn⟩]

/-- Witness for claim C4 at M = 2, N = 3, alpha = 0, null A pointer, device
pointer mode, checking the (0, 0) element of the result. -/
theorem claim_C4_alpha_zero_solution_witness :
    trsmEnumsValid alphaZeroArgs = true ∧ (0 : Int) < alphaZeroArgs.m ∧
      (0 : Int) < alphaZeroArgs.n ∧
      kDim alphaZeroArgs.side alphaZeroArgs.m alphaZeroArgs.n
        ≤ alphaZeroArgs.lda ∧
      alphaZeroArgs.m ≤ alphaZeroArgs.ldb ∧
      alphaZeroArgs.alpha = some 0 ∧ alphaZeroArgs.bNull = false ∧
      (trsm_run idEngine true PointerMode.device alphaZeroArgs sampleB).1
        = Status.success ∧
      (trsm_run idEngine true PointerMode.device alphaZeroArgs sampleB).2 0 0
        = 0 :=
  ⟨by decide, by decide, by decide, by decide, by decide, rfl, rfl,
    (claim_C4_alpha_zero_solution idEngine PointerMode.device alphaZeroArgs
      sampleB (by decide) (by decide) (by decide) (by decide) (by decide)
      rfl rfl).1,
    (claim_C4_alpha_zero_solution idEngine PointerMode.device alphaZeroArgs
      sampleB (by decide) (by decide) (by decide) (by decide) (by decide)
      rfl rfl).2 0 0 (by decide) (by decide) (by decide) (by decide)⟩

/-- Claim C5: an illegal enumerator among side, uplo, transA, diag makes the
validator return invalid_value regardless of the remaining arguments (sizes
and pointers included), in either pointer mode: the enumerator check runs
right after the handle check and before size and pointer checks. -/
theorem claim_C5_enum_precedence (mode : PointerMode) (a : TrsmArgs)
    (henum : trsmEnumsValid a = false) :
    trsm_validate true mode a = Status.invalid_value := by
  unfold trsm_validate
  rw [if_neg (by simp), if_pos henum]

/-- Witness for claim C5 at side = both combined with a negative M, bad
leading dimensions and null pointers: invalid_value still wins. -/
theorem claim_C5_enum_precedence_witness :
    trsmEnumsValid badEnumArgs = false ∧
      trsm_validate true PointerMode.host badEnumArgs
        = Status.invalid_value :=
  ⟨by decide,
    claim_C5_enum_precedence PointerMode.host badEnumArgs (by decide)⟩

/-- Claim C6: with non-negative M and N, lda < K (K = M if side = left else
N) or ldb < M makes the validator return invalid_size, in either pointer
mode. -/
theorem claim_C6_bad_leading_dimension (mode : PointerMode) (a : TrsmArgs)
    (henum : trsmEnumsValid a = true) (hm : 0 ≤ a.m) (hn : 0 ≤ a.n)
    (hld : a.lda < kDim a.side a.m a.n ∨ a.ldb < a.m) :
    trsm_validate true mode a = Status.invalid_size := by
  unfold trsm_validate
  rw [if_neg (by simp), if_neg (by simp [henum]), if_neg (by omega),
    if_pos hld]

/-- Witness for claim C6 at the spec's example scenario: M = N = 100,
lda = 100, ldb = 99 = M - 1 gives invalid_size. -/
theorem claim_C6_bad_leading_dimension_witness :
    trsmEnumsValid badLdbArgs = true ∧ (0 : Int) ≤ badLdbArgs.m ∧
      (0 : Int) ≤ badLdbArgs.n ∧
      (badLdbArgs.lda < kDim badLdbArgs.side badLdbArgs.m badLdbArgs.n ∨
        badLdbArgs.ldb < badLdbArgs.m) ∧
      trsm_validate true PointerMode.host badLdbArgs
        = Status.invalid_size :=
  ⟨by decide, by decide, by decide, Or.inr (by decide),
    claim_C6_bad_leading_dimension PointerMode.host badLdbArgs (by decide)
      (by decide) (by decide) (Or.inr (by decide))⟩

/-- Claim C9: under a bracketed device-memory size query,
rocblas_hbmv_impl launches no kernel, records a zero workspace size, and
returns the same outcome for any two argument sets — the short circuit
sits right after the handle check and before argument validation, and a
null handle still yields invalid_handle even during a query. -/
theorem claim_C9_size_query_short_circuit (a b : HbmvArgs) :
    (rocblas_hbmv_impl false true a).launchedKernel = false ∧
      (rocblas_hbmv_impl false true a).queriedSize = some 0 ∧
      rocblas_hbmv_impl false true a = rocblas_hbmv_impl false true b ∧
      (rocblas_hbmv_impl true true a).status = Status.invalid_handle :=
  ⟨rfl, rfl, rfl, rfl⟩

/-- Claim C10: with a nonzero alpha and otherwise valid arguments, a null A
pointer is rejected as invalid_pointer only in host pointer mode and passes
the validator (continue) in device pointer mode, while a null B pointer and
a null alpha pointer are rejected as invalid_pointer in both modes. -/
theorem claim_C10_pointer_checks_by_mode (s : Side) (u : Fill)
    (t : Operation) (d : Diagonal) (m n lda ldb v : Int)
    (hs : sideValid s = true) (hu : fillValid u = true)
    (ht : operationValid t = true) (hd : diagonalValid d = true)
    (hm : 0 < m) (hn : 0 < n) (hlda : kDim s m n ≤ lda) (hldb : m ≤ ldb)
    (hv : v ≠ 0) :
    trsm_validate true PointerMode.host
        ⟨s, u, t, d, m, n, lda, ldb, some v, true, false⟩
        = Status.invalid_pointer ∧
      trsm_validate true PointerMode.device
          ⟨s, u, t, d, m, n, lda, ldb, some v, true, false⟩
          = Status.status_continue ∧
      trsm_validate true PointerMode.host
          ⟨s, u, t, d, m, n, lda, ldb, some v, false, true⟩
          = Status.invalid_pointer ∧
      trsm_validate true PointerMode.device
          ⟨s, u, t, d, m, n, lda, ldb, some v, false, true⟩
          = Status.invalid_pointer ∧
      trsm_validate true PointerMode.host
          ⟨s, u, t, d, m, n, lda, ldb, Option.none, false, false⟩
          = Status.invalid_pointer ∧
      trsm_validate true PointerMode.device
          ⟨s, u, t, d, m, n, lda, ldb, Option.none, false, false⟩
          = Status.invalid_pointer := by
  have h1 : ¬(m < 0 ∨ n < 0) := by omega
  have h2 : ¬(lda < kDim s m n ∨ ldb < m) := by push_neg; exact ⟨hlda, hldb⟩
  have h3 : ¬(m = 0 ∨ n = 0) := by omega
  refine ⟨?_, ?_, ?_, ?_, ?_, ?_⟩ <;>
    simp [trsm_validate, trsmEnumsValid, hs, hu, ht, hd, h1, h2, h3, hv]

/-- Witness for claim C10 at side = left, uplo = upper, transA = none,
diag = non-unit, M = 2, N = 3, lda = ldb = 2, alpha = 1. -/
theorem claim_C10_pointer_checks_by_mode_witness :
    sideValid Side.left = true ∧ fillValid Fill.upper = true ∧
      operationValid Operation.none = true ∧
      diagonalValid Diagonal.non_unit = true ∧ (0 : Int) < 2 ∧
      (0 : Int) < 3 ∧ kDim Side.left 2 3 ≤ 2 ∧ (2 : Int) ≤ 2 ∧
      (1 : Int) ≠ 0 ∧
      (trsm_validate true PointerMode.host
          ⟨Side.left, Fill.upper, Operation.none, Diagonal.non_unit, 2, 3, 2,
            2, some 1, true, false⟩
          = Status.invalid_pointer ∧
        trsm_validate true PointerMode.device
            ⟨Side.left, Fill.upper, Operation.none, Diagonal.non_unit, 2, 3,
              2, 2, some 1, true, false⟩
            = Status.status_continue ∧
        trsm_validate true PointerMode.host
            ⟨Side.left, Fill.upper, Operation.none, Diagonal.non_unit, 2, 3,
              2, 2, some 1, false, true⟩
            = Status.invalid_pointer ∧
        trsm_validate true PointerMode.device
            ⟨Side.left, Fill.upper, Operation.none, Diagonal.non_unit, 2, 3,
              2, 2, some 1, false, true⟩
            = Status.invalid_pointer ∧
        trsm_validate true PointerMode.host
            ⟨Side.left, Fill.upper, Operation.none, Diagonal.non_unit, 2, 3,
              2, 2, Option.none, false, false⟩
            = Status.invalid_pointer ∧
        trsm_validate true PointerMode.device
            ⟨Side.left, Fill.upper, Operation.none, Diagonal.non_unit, 2, 3,
              2, 2, Option.none, false, false⟩
            = Status.invalid_pointer) :=
  ⟨by decide, by decide, by decide, by decide, by decide, by decide,
    by decide, by decide, by decide,
    claim_C10_pointer_checks_by_mode Side.left Fill.upper Operation.none
      Diagonal.non_unit 2 3 2 2 1 (by decide) (by decide) (by decide)
      (by decide) (by decide) (by decide) (by decide) (by decide)
      (by decide)⟩

end RocblasSpec
